import Mathlib

/-
Verification of the telegraf event-ingestion and context-resolution layer:
a shallow embedding of `src/context.ts` (the `Context` class, the
`updateType` classifier, the derived-field resolution cascades and the
guarded convenience operations) and of `src/core/network/webhook.ts`
(`generateWebhook`), together with theorems about them.

Modelling conventions:
- TypeScript optional fields (possibly `undefined`) become `Option`.
- The outbound transport (`this.telegram.<op>(...)`) is modelled by
  returning a `TransportCall` value describing the call and its
  arguments; a convenience operation therefore has result type
  `Except String TransportCall`, where `Except.error msg` models the
  synchronous `throw` raised by `Context.assert` before any transport
  activity, and `Except.ok call` models "the operation delegated to the
  transport with exactly these arguments".
- The TypeScript field and method name `from` is a Lean keyword, so it
  is rendered `from_` throughout.
-/

namespace Telegraf

/-- A Telegram user (`tg.User`), reduced to the identifying field the
Context layer reads. -/
structure User where
  id : Int
  deriving Repr, DecidableEq

/-- A Telegram chat (`tg.Chat`), reduced to the identifying field the
Context layer reads. -/
structure Chat where
  id : Int
  deriving Repr, DecidableEq

/-- A Telegram message (`tg.Message`): the fields read by the Context
layer. `chat` is a required field; `from`, `sender_chat` and
`message_thread_id` are optional; the absent/`undefined` value of the
optional boolean `is_topic_message` is identified with `false`, which is
how the source's truthiness test treats it. -/
structure Message where
  message_id : Nat
  chat : Chat
  from_ : Option User := none
  sender_chat : Option Chat := none
  message_thread_id : Option Nat := none
  is_topic_message : Bool := false
  deriving Repr, DecidableEq

/-- A callback query (`tg.CallbackQuery`): `from` is required, `message`
and `inline_message_id` are optional. -/
structure CallbackQuery where
  id : String
  from_ : User
  message : Option Message := none
  inline_message_id : Option String := none
  deriving Repr, DecidableEq

/-- An inline query (`tg.InlineQuery`): `from` is required. -/
structure InlineQuery where
  id : String
  from_ : User
  deriving Repr, DecidableEq

/-- A shipping query (`tg.ShippingQuery`): `from` is required. -/
structure ShippingQuery where
  id : String
  from_ : User
  deriving Repr, DecidableEq

/-- A pre-checkout query (`tg.PreCheckoutQuery`): `from` is required. -/
structure PreCheckoutQuery where
  id : String
  from_ : User
  deriving Repr, DecidableEq

/-- A chosen inline result (`tg.ChosenInlineResult`): `from` is
required, `inline_message_id` is optional. -/
structure ChosenInlineResult where
  result_id : String
  from_ : User
  inline_message_id : Option String := none
  deriving Repr, DecidableEq

/-- A poll (`tg.Poll`), reduced to its id. -/
structure Poll where
  id : String
  deriving Repr, DecidableEq

/-- A poll answer (`tg.PollAnswer`), reduced to the fields relevant
here (note: its user field is named `user`, not `from`). -/
structure PollAnswer where
  poll_id : String
  user : User
  deriving Repr, DecidableEq

/-- A chat member update (`tg.ChatMemberUpdated`, used for both
`chat_member` and `my_chat_member`): `chat` and `from` are required. -/
structure ChatMemberUpdated where
  chat : Chat
  from_ : User
  deriving Repr, DecidableEq

/-- A chat join request (`tg.ChatJoinRequest`): `chat` and `from` are
required. -/
structure ChatJoinRequest where
  chat : Chat
  from_ : User
  deriving Repr, DecidableEq

/-- The Update envelope (`tg.Update`, deunionized): `update_id` is a
required number, and each of the 14 payload kinds is an optional object
field. An absent field is `none`, mirroring a key that is not present
on the runtime object. -/
structure Update where
  update_id : Nat
  message : Option Message := none
  edited_message : Option Message := none
  channel_post : Option Message := none
  edited_channel_post : Option Message := none
  inline_query : Option InlineQuery := none
  chosen_inline_result : Option ChosenInlineResult := none
  callback_query : Option CallbackQuery := none
  shipping_query : Option ShippingQuery := none
  pre_checkout_query : Option PreCheckoutQuery := none
  poll : Option Poll := none
  poll_answer : Option PollAnswer := none
  my_chat_member : Option ChatMemberUpdated := none
  chat_member : Option ChatMemberUpdated := none
  chat_join_request : Option ChatJoinRequest := none
  deriving Repr, DecidableEq

/-- The keys of an Update in enumeration order, each paired with
whether its value is of object type — this mirrors the body of the
`for (const key in this.update)` loop of the `updateType` getter:
`update_id` is a number (never of object type, so the loop always skips
it), and a payload key is enumerated with an object value exactly when
the field is present. -/
def Update.objectFields (u : Update) : List (String × Bool) :=
  [("update_id", false),
   ("message", u.message.isSome),
   ("edited_message", u.edited_message.isSome),
   ("channel_post", u.channel_post.isSome),
   ("edited_channel_post", u.edited_channel_post.isSome),
   ("inline_query", u.inline_query.isSome),
   ("chosen_inline_result", u.chosen_inline_result.isSome),
   ("callback_query", u.callback_query.isSome),
   ("shipping_query", u.shipping_query.isSome),
   ("pre_checkout_query", u.pre_checkout_query.isSome),
   ("poll", u.poll.isSome),
   ("poll_answer", u.poll_answer.isSome),
   ("my_chat_member", u.my_chat_member.isSome),
   ("chat_member", u.chat_member.isSome),
   ("chat_join_request", u.chat_join_request.isSome)]

/-- The `updateType` getter: scan the Update's keys in order and return
the first whose value is of object type; if none is found, throw
("Cannot determine updateType of ..."). -/
def Update.updateType (u : Update) : Except String String :=
  match u.objectFields.find? (fun kv => kv.2) with
  | some kv => Except.ok kv.1
  | none => Except.error "Cannot determine updateType of update"

/-- The names of the populated (present, non-null object) top-level
payload fields of an Update, in key order. -/
def Update.populatedKeys (u : Update) : List String :=
  (u.objectFields.filter (fun kv => kv.2)).map (fun kv => kv.1)

/-- The Context: created fresh for every dispatched Update. The
`telegram` transport capability and `botInfo` are modelled implicitly
(operations return the `TransportCall` they would delegate), the
untyped `state` bag is irrelevant to the verified behavior. -/
structure Context where
  update : Update
  deriving Repr, DecidableEq

/-- The `message` projection getter. -/
def Context.message (c : Context) : Option Message := c.update.message

/-- The `editedMessage` projection getter. -/
def Context.editedMessage (c : Context) : Option Message :=
  c.update.edited_message

/-- The `inlineQuery` projection getter. -/
def Context.inlineQuery (c : Context) : Option InlineQuery :=
  c.update.inline_query

/-- The `shippingQuery` projection getter. -/
def Context.shippingQuery (c : Context) : Option ShippingQuery :=
  c.update.shipping_query

/-- The `preCheckoutQuery` projection getter. -/
def Context.preCheckoutQuery (c : Context) : Option PreCheckoutQuery :=
  c.update.pre_checkout_query

/-- The `chosenInlineResult` projection getter. -/
def Context.chosenInlineResult (c : Context) : Option ChosenInlineResult :=
  c.update.chosen_inline_result

/-- The `channelPost` projection getter. -/
def Context.channelPost (c : Context) : Option Message :=
  c.update.channel_post

/-- The `editedChannelPost` projection getter. -/
def Context.editedChannelPost (c : Context) : Option Message :=
  c.update.edited_channel_post

/-- The `callbackQuery` projection getter. -/
def Context.callbackQuery (c : Context) : Option CallbackQuery :=
  c.update.callback_query

/-- The `myChatMember` projection getter. -/
def Context.myChatMember (c : Context) : Option ChatMemberUpdated :=
  c.update.my_chat_member

/-- The `chatMember` projection getter. -/
def Context.chatMember (c : Context) : Option ChatMemberUpdated :=
  c.update.chat_member

/-- The `chatJoinRequest` projection getter. -/
def Context.chatJoinRequest (c : Context) : Option ChatJoinRequest :=
  c.update.chat_join_request

/-- The `updateType` getter on a Context delegates to the Update. -/
def Context.updateType (c : Context) : Except String String :=
  c.update.updateType

/-- The helper `getMessageFromAnySource`:
`ctx.message ?? ctx.editedMessage ?? ctx.callbackQuery?.message ??
ctx.channelPost ?? ctx.editedChannelPost`. -/
def getMessageFromAnySource (c : Context) : Option Message :=
  c.message <|> c.editedMessage <|>
    (c.callbackQuery.bind CallbackQuery.message) <|>
    c.channelPost <|> c.editedChannelPost

/-- The heterogeneous candidate selected by the `chat` getter's
null-coalescing chain `this.chatMember ?? this.myChatMember ??
this.chatJoinRequest ?? getMessageFromAnySource(this)` before `?.chat`
projects out of it. -/
inductive ChatSource where
  | chatMember (u : ChatMemberUpdated)
  | myChatMember (u : ChatMemberUpdated)
  | chatJoinRequest (r : ChatJoinRequest)
  | message (m : Message)
  deriving Repr, DecidableEq

/-- The `chat` sub-field of each `chat` candidate (a required field on
every candidate shape). -/
def ChatSource.chat : ChatSource → Chat
  | .chatMember u => u.chat
  | .myChatMember u => u.chat
  | .chatJoinRequest r => r.chat
  | .message m => m.chat

/-- The null-coalescing chain of the `chat` getter, kept as the
selected candidate. -/
def Context.chatCandidate (c : Context) : Option ChatSource :=
  (c.chatMember.map ChatSource.chatMember) <|>
    (c.myChatMember.map ChatSource.myChatMember) <|>
    (c.chatJoinRequest.map ChatSource.chatJoinRequest) <|>
    ((getMessageFromAnySource c).map ChatSource.message)

/-- The `chat` getter: `(this.chatMember ?? this.myChatMember ??
this.chatJoinRequest ?? getMessageFromAnySource(this))?.chat`. -/
def Context.chat (c : Context) : Option Chat :=
  c.chatCandidate.map ChatSource.chat

/-- The `senderChat` getter:
`getMessageFromAnySource(this)?.sender_chat`. -/
def Context.senderChat (c : Context) : Option Chat :=
  (getMessageFromAnySource c).bind Message.sender_chat

/-- The heterogeneous candidate selected by the `from` getter's
null-coalescing chain before `?.from` projects out of it. -/
inductive FromSource where
  | callbackQuery (q : CallbackQuery)
  | inlineQuery (q : InlineQuery)
  | shippingQuery (q : ShippingQuery)
  | preCheckoutQuery (q : PreCheckoutQuery)
  | chosenInlineResult (r : ChosenInlineResult)
  | chatMember (u : ChatMemberUpdated)
  | myChatMember (u : ChatMemberUpdated)
  | chatJoinRequest (r : ChatJoinRequest)
  | message (m : Message)
  deriving Repr, DecidableEq

/-- The `from` sub-field of each `from` candidate: required on every
query/member/request shape, optional on a message. -/
def FromSource.from_ : FromSource → Option User
  | .callbackQuery q => some q.from_
  | .inlineQuery q => some q.from_
  | .shippingQuery q => some q.from_
  | .preCheckoutQuery q => some q.from_
  | .chosenInlineResult r => some r.from_
  | .chatMember u => some u.from_
  | .myChatMember u => some u.from_
  | .chatJoinRequest r => some r.from_
  | .message m => m.from_

/-- The null-coalescing chain of the `from` getter
(`this.callbackQuery ?? this.inlineQuery ?? this.shippingQuery ??
this.preCheckoutQuery ?? this.chosenInlineResult ?? this.chatMember ??
this.myChatMember ?? this.chatJoinRequest ??
getMessageFromAnySource(this)`), kept as the selected candidate. -/
def Context.fromCandidate (c : Context) : Option FromSource :=
  (c.callbackQuery.map FromSource.callbackQuery) <|>
    (c.inlineQuery.map FromSource.inlineQuery) <|>
    (c.shippingQuery.map FromSource.shippingQuery) <|>
    (c.preCheckoutQuery.map FromSource.preCheckoutQuery) <|>
    (c.chosenInlineResult.map FromSource.chosenInlineResult) <|>
    (c.chatMember.map FromSource.chatMember) <|>
    (c.myChatMember.map FromSource.myChatMember) <|>
    (c.chatJoinRequest.map FromSource.chatJoinRequest) <|>
    ((getMessageFromAnySource c).map FromSource.message)

/-- The `from` getter: the chain above followed by `?.from`. -/
def Context.from_ (c : Context) : Option User :=
  c.fromCandidate.bind FromSource.from_

/-- The `inlineMessageId` getter:
`(this.callbackQuery ?? this.chosenInlineResult)?.inline_message_id`. -/
def Context.inlineMessageId (c : Context) : Option String :=
  match c.callbackQuery with
  | some q => q.inline_message_id
  | none => c.chosenInlineResult.bind ChosenInlineResult.inline_message_id

/-- An extras object (`tt.Extra...`): the optional named parameters a
caller may supply to a convenience operation, restricted to the keys
the Context layer itself reads or writes. `none` models an absent
key. -/
structure Extra where
  reply_to_message_id : Option Nat := none
  message_thread_id : Option Nat := none
  parse_mode : Option String := none
  deriving Repr, DecidableEq

/-- The object literal written in the source as
`[ message_thread_id: tid, ...extra ]` (with braces): the spread makes
a key of `extra` override the default, so the resulting
`message_thread_id` is `extra`'s value when that key is present, and
`tid` otherwise; all other keys come from `extra`. -/
def spreadUnderThread (tid : Option Nat) (extra : Extra) : Extra :=
  { extra with message_thread_id := extra.message_thread_id <|> tid }

/-- The object literal written in the source as
`[ reply_to_message_id: rid, ...extra ]` (with braces): the
caller-supplied `extra` wins on the `reply_to_message_id` key; all
other keys come from `extra`. -/
def spreadUnderReply (rid : Option Nat) (extra : Extra) : Extra :=
  { extra with reply_to_message_id := extra.reply_to_message_id <|> rid }

/-- The helper `getThreadId`:
`msg?.is_topic_message ? msg.message_thread_id : undefined`. -/
def getThreadId (msg : Option Message) : Option Nat :=
  match msg with
  | some m => if m.is_topic_message then m.message_thread_id else none
  | none => none

/-- A call delegated to the outbound transport capability
(`this.telegram.<op>(...)`), recording the operation and the resolved
arguments passed to it. -/
inductive TransportCall where
  | sendMessage (chatId : Int) (text : String) (extra : Extra)
  | sendPhoto (chatId : Int) (photo : String) (extra : Extra)
  | getChat (chatId : Int)
  | banChatMember (chatId : Int) (userId : Int)
  | editMessageText (chatId : Option Int) (messageId : Option Nat)
      (inlineMessageId : Option String) (text : String) (extra : Extra)
  | editMessageCaption (chatId : Option Int) (messageId : Option Nat)
      (inlineMessageId : Option String) (caption : Option String)
      (extra : Extra)
  | editMessageMedia (chatId : Option Int) (messageId : Option Nat)
      (inlineMessageId : Option String) (media : String) (extra : Extra)
  | editMessageReplyMarkup (chatId : Option Int) (messageId : Option Nat)
      (inlineMessageId : Option String) (markup : Option String)
  | editMessageLiveLocation (chatId : Option Int) (messageId : Option Nat)
      (inlineMessageId : Option String) (latitude : Int) (longitude : Int)
      (extra : Extra)
  | stopMessageLiveLocation (chatId : Option Int) (messageId : Option Nat)
      (inlineMessageId : Option String) (markup : Option String)
  | editForumTopic (chatId : Int) (threadId : Nat) (extra : Extra)
  | closeForumTopic (chatId : Int) (threadId : Nat)
  | reopenForumTopic (chatId : Int) (threadId : Nat)
  | deleteForumTopic (chatId : Int) (threadId : Nat)
  | unpinAllForumTopicMessages (chatId : Int) (threadId : Nat)
  deriving Repr, DecidableEq

/-- The text of the `TypeError` thrown by `Context.assert`:
`Telegraf: "<method>" isn't available for "<updateType>"`. -/
def usageMessage (method : String) (kind : String) : String :=
  "Telegraf: \"" ++ method ++ "\" isn\x27t available for \"" ++ kind ++ "\""

/-- The guard `Context.assert(value, method)`: when `value` is
undefined it throws a `TypeError` naming the method and the current
update kind (evaluating `this.updateType` first, whose own error
propagates if the Update is empty); otherwise execution continues with
the value. -/
def Context.assert {α : Type} (c : Context) (value : Option α)
    (method : String) : Except String α :=
  match value with
  | some v => Except.ok v
  | none =>
    match c.updateType with
    | Except.ok t => Except.error (usageMessage method t)
    | Except.error e => Except.error e

/-- The operation `sendMessage(text, extra)`: assert `this.chat`, then
delegate with the chat id and the thread-id-augmented extras. -/
def Context.sendMessage (c : Context) (text : String) (extra : Extra) :
    Except String TransportCall :=
  (c.assert c.chat "sendMessage").map fun chat =>
    TransportCall.sendMessage chat.id text
      (spreadUnderThread (getThreadId c.message) extra)

/-- The operation `reply(text, extra)`: resolve the reply target via
`getMessageFromAnySource`, then call `sendMessage` with
`reply_to_message_id` merged under the caller's extras. -/
def Context.reply (c : Context) (text : String) (extra : Extra) :
    Except String TransportCall :=
  let reply_to_message_id := (getMessageFromAnySource c).map Message.message_id
  c.sendMessage text (spreadUnderReply reply_to_message_id extra)

/-- The operation `sendPhoto(photo, extra)`: assert `this.chat`, then
delegate with the chat id and the thread-id-augmented extras. -/
def Context.sendPhoto (c : Context) (photo : String) (extra : Extra) :
    Except String TransportCall :=
  (c.assert c.chat "sendPhoto").map fun chat =>
    TransportCall.sendPhoto chat.id photo
      (spreadUnderThread (getThreadId c.message) extra)

/-- The operation `replyWithPhoto(photo, extra)`: resolve the reply
target via `getMessageFromAnySource`, then call `sendPhoto` with
`reply_to_message_id` merged under the caller's extras. -/
def Context.replyWithPhoto (c : Context) (photo : String) (extra : Extra) :
    Except String TransportCall :=
  let reply_to_message_id := (getMessageFromAnySource c).map Message.message_id
  c.sendPhoto photo (spreadUnderReply reply_to_message_id extra)

/-- The operation `getChat()`: assert `this.chat`, then delegate with
the chat id. -/
def Context.getChat (c : Context) : Except String TransportCall :=
  (c.assert c.chat "getChat").map fun chat =>
    TransportCall.getChat chat.id

/-- The operation `banChatMember(userId)`: assert `this.chat`, then
delegate with the chat id and the remaining arguments. -/
def Context.banChatMember (c : Context) (userId : Int) :
    Except String TransportCall :=
  (c.assert c.chat "banChatMember").map fun chat =>
    TransportCall.banChatMember chat.id userId

/-- The value guarded by every edit-type operation:
`this.callbackQuery ?? this.inlineMessageId` (a callback query, or
failing that an inline-message-id). -/
def Context.editGuard (c : Context) : Option (Sum CallbackQuery String) :=
  (c.callbackQuery.map Sum.inl) <|> (c.inlineMessageId.map Sum.inr)

/-- The addressing identifier `this.callbackQuery?.message?.message_id`
passed by every edit-type operation. -/
def Context.callbackMessageId (c : Context) : Option Nat :=
  (c.callbackQuery.bind CallbackQuery.message).map Message.message_id

/-- The operation `editMessageText(text, extra)`: assert
`this.callbackQuery ?? this.inlineMessageId`, then delegate with
`this.chat?.id`, `this.callbackQuery?.message?.message_id` and
`this.inlineMessageId`. -/
def Context.editMessageText (c : Context) (text : String) (extra : Extra) :
    Except String TransportCall :=
  (c.assert c.editGuard "editMessageText").map fun _ =>
    TransportCall.editMessageText (c.chat.map Chat.id)
      c.callbackMessageId c.inlineMessageId text extra

/-- The operation `editMessageCaption(caption, extra)`: same guard and
addressing as `editMessageText`. -/
def Context.editMessageCaption (c : Context) (caption : Option String)
    (extra : Extra) : Except String TransportCall :=
  (c.assert c.editGuard "editMessageCaption").map fun _ =>
    TransportCall.editMessageCaption (c.chat.map Chat.id)
      c.callbackMessageId c.inlineMessageId caption extra

/-- The operation `editMessageMedia(media, extra)`: same guard and
addressing as `editMessageText`. -/
def Context.editMessageMedia (c : Context) (media : String) (extra : Extra) :
    Except String TransportCall :=
  (c.assert c.editGuard "editMessageMedia").map fun _ =>
    TransportCall.editMessageMedia (c.chat.map Chat.id)
      c.callbackMessageId c.inlineMessageId media extra

/-- The operation `editMessageReplyMarkup(markup)`: same guard and
addressing as `editMessageText`. -/
def Context.editMessageReplyMarkup (c : Context) (markup : Option String) :
    Except String TransportCall :=
  (c.assert c.editGuard "editMessageReplyMarkup").map fun _ =>
    TransportCall.editMessageReplyMarkup (c.chat.map Chat.id)
      c.callbackMessageId c.inlineMessageId markup

/-- The operation `editMessageLiveLocation(latitude, longitude,
extra)`: same guard and addressing as `editMessageText`. -/
def Context.editMessageLiveLocation (c : Context) (latitude longitude : Int)
    (extra : Extra) : Except String TransportCall :=
  (c.assert c.editGuard "editMessageLiveLocation").map fun _ =>
    TransportCall.editMessageLiveLocation (c.chat.map Chat.id)
      c.callbackMessageId c.inlineMessageId latitude longitude extra

/-- The operation `stopMessageLiveLocation(markup)`: same guard and
addressing as `editMessageText`. -/
def Context.stopMessageLiveLocation (c : Context) (markup : Option String) :
    Except String TransportCall :=
  (c.assert c.editGuard "stopMessageLiveLocation").map fun _ =>
    TransportCall.stopMessageLiveLocation (c.chat.map Chat.id)
      c.callbackMessageId c.inlineMessageId markup

/-- The thread identifier `this.message?.message_thread_id` required by
the forum-topic operations. -/
def Context.messageThreadId (c : Context) : Option Nat :=
  c.message.bind Message.message_thread_id

/-- The operation `editForumTopic(extra)`: assert `this.chat`, assert
`this.message?.message_thread_id`, then delegate with both. -/
def Context.editForumTopic (c : Context) (extra : Extra) :
    Except String TransportCall := do
  let chat ← c.assert c.chat "editForumTopic"
  let tid ← c.assert c.messageThreadId "editForumTopic"
  pure (TransportCall.editForumTopic chat.id tid extra)

/-- The operation `closeForumTopic()`: assert `this.chat`, assert
`this.message?.message_thread_id`, then delegate with both. -/
def Context.closeForumTopic (c : Context) : Except String TransportCall := do
  let chat ← c.assert c.chat "closeForumTopic"
  let tid ← c.assert c.messageThreadId "closeForumTopic"
  pure (TransportCall.closeForumTopic chat.id tid)

/-- The operation `reopenForumTopic()`: assert `this.chat`, assert
`this.message?.message_thread_id`, then delegate with both. -/
def Context.reopenForumTopic (c : Context) : Except String TransportCall := do
  let chat ← c.assert c.chat "reopenForumTopic"
  let tid ← c.assert c.messageThreadId "reopenForumTopic"
  pure (TransportCall.reopenForumTopic chat.id tid)

/-- The operation `deleteForumTopic()`: assert `this.chat`, assert
`this.message?.message_thread_id`, then delegate with both. -/
def Context.deleteForumTopic (c : Context) : Except String TransportCall := do
  let chat ← c.assert c.chat "deleteForumTopic"
  let tid ← c.assert c.messageThreadId "deleteForumTopic"
  pure (TransportCall.deleteForumTopic chat.id tid)

/-- The operation `unpinAllForumTopicMessages()`: assert `this.chat`,
assert `this.message?.message_thread_id`, then delegate with both. -/
def Context.unpinAllForumTopicMessages (c : Context) :
    Except String TransportCall := do
  let chat ← c.assert c.chat "unpinAllForumTopicMessages"
  let tid ← c.assert c.messageThreadId "unpinAllForumTopicMessages"
  pure (TransportCall.unpinAllForumTopicMessages chat.id tid)

/-- The HTTP response object (`http.ServerResponse`), reduced to what
the webhook adapter reads and writes: the status code, the
`writableEnded` flag, and a count of how many times `end()` was called
(so that double-ending is observable). -/
structure Res where
  statusCode : Option Nat := none
  writableEnded : Bool := false
  endCount : Nat := 0
  deriving Repr, DecidableEq

/-- The effect of `res.end()`. -/
def Res.endResponse (r : Res) : Res :=
  { r with writableEnded := true, endCount := r.endCount + 1 }

/-- The effect of setting the response status
(`res.statusCode = ...` or `res.writeHead(..., \x7b\x7d)`). -/
def Res.writeHead (r : Res) (code : Nat) : Res :=
  { r with statusCode := some code }

/-- A pre-attached request body (`req.body`): already a structured
update object, a raw byte buffer, or a string. -/
inductive ReqBody where
  | obj (u : Update)
  | buffer (bytes : List Nat)
  | str (s : String)
  deriving Repr, DecidableEq

/-- The HTTP request (`http.IncomingMessage & [ body?: Update ]`):
an optional pre-attached body, plus the raw text carried by the
request's body stream (what `json(req)` would consume). -/
structure Req where
  body : Option ReqBody := none
  streamBody : String := ""
  deriving Repr, DecidableEq

/-- The body of the `try` block that normalizes the request into an
Update. `decode` models `String(buffer)` (UTF-8 decoding of a Buffer
never throws), `jsonParse` models `JSON.parse` (and the parsing half of
`json(req)`), with `Except.error` modelling a thrown `SyntaxError`:
a pre-attached object is used as-is, a pre-attached buffer is decoded
to a string and then parsed, a pre-attached string is parsed, and with
no pre-attached body the stream's contents are parsed. -/
def parseBody (decode : List Nat → String)
    (jsonParse : String → Except String Update) (req : Req) :
    Except String Update :=
  match req.body with
  | some (ReqBody.obj u) => Except.ok u
  | some (ReqBody.buffer bytes) => jsonParse (decode bytes)
  | some (ReqBody.str s) => jsonParse s
  | none => jsonParse req.streamBody

/-- The observable outcome of one webhook invocation: the final
response state, the updates the supplied handler was invoked with (in
order), and the exception (if any) that propagates to the adapter's
caller. -/
structure WebhookOutcome where
  res : Res
  dispatched : List Update
  thrown : Option String
  deriving Repr, DecidableEq

/-- The request handler produced by `generateWebhook(filter,
updateHandler)`, as a pure function. The supplied `updateHandler` is
modelled as `Update → Res → Option String × Res`: it may mutate the
response (in particular end it) and may throw (`some err`). The default
`next` continuation responds 403 and ends. Per the source: a request
failing the filter takes `next`; a body-normalization failure responds
415, is logged and ends processing (nothing is thrown to the caller);
otherwise the handler is invoked with the update and, in a `finally`,
the response is ended only if `res.writableEnded` is still false, after
which a handler exception propagates unchanged. -/
def generateWebhook (filter : Req → Bool)
    (updateHandler : Update → Res → Option String × Res)
    (decode : List Nat → String)
    (jsonParse : String → Except String Update)
    (req : Req) (res : Res) : WebhookOutcome :=
  if filter req then
    match parseBody decode jsonParse req with
    | Except.error _ =>
      { res := (res.writeHead 415).endResponse
        dispatched := []
        thrown := none }
    | Except.ok update =>
      let handled := updateHandler update res
      { res :=
          if handled.2.writableEnded then handled.2
          else handled.2.endResponse
        dispatched := [update]
        thrown := handled.1 }
  else
    { res := (res.writeHead 403).endResponse
      dispatched := []
      thrown := none }

/-! Theorems about the embedded definitions. -/

set_option maxRecDepth 4096 in
/-- A first-match scan (`find?`) returns the head of the filtered
list: the shape shared by the classifier loop. -/
theorem find?_eq_head?_filter {α : Type} (p : α → Bool) (l : List α) :
    l.find? p = (l.filter p).head? := by
  induction l with
  | nil => rfl
  | cons a l ih =>
    cases h : p a with
    | true =>
      rw [List.find?_cons_of_pos _ h, List.filter_cons_of_pos h,
        List.head?_cons]
    | false =>
      rw [List.find?_cons_of_neg _ (by simp [h]),
        List.filter_cons_of_neg (by simp [h])]
      exact ih

/-- C1: for every Update with exactly one populated top-level field,
the `updateType` getter returns that field's name; for an Update with
zero populated fields it raises a classification error; and raising is
possible only in the zero-populated case (an error implies no field
was populated). -/
theorem updateType_classifies (u : Update) :
    (∀ k, u.populatedKeys = [k] → u.updateType = Except.ok k) ∧
    (u.populatedKeys = [] →
      u.updateType = Except.error "Cannot determine updateType of update") ∧
    (∀ e, u.updateType = Except.error e → u.populatedKeys = []) := by
  have hfh : u.objectFields.find? (fun kv => kv.2) =
      (u.objectFields.filter (fun kv => kv.2)).head? :=
    find?_eq_head?_filter _ _
  refine ⟨?_, ?_, ?_⟩
  · intro k hk
    unfold Update.populatedKeys at hk
    cases hf : u.objectFields.filter (fun kv => kv.2) with
    | nil => rw [hf] at hk; simp at hk
    | cons kv tl =>
      rw [hf] at hk
      simp only [List.map_cons, List.cons.injEq] at hk
      unfold Update.updateType
      rw [hfh, hf, List.head?_cons]
      show Except.ok kv.1 = Except.ok k
      rw [hk.1]
  · intro hk
    unfold Update.populatedKeys at hk
    rw [List.map_eq_nil_iff] at hk
    unfold Update.updateType
    rw [hfh, hk]
    rfl
  · intro e he
    unfold Update.updateType at he
    unfold Update.populatedKeys
    cases hfind : u.objectFields.find? (fun kv => kv.2) with
    | some kv => rw [hfind] at he; exact absurd he (by simp)
    | none =>
      rw [hfh] at hfind
      rw [List.head?_eq_none_iff] at hfind
      rw [hfind]
      rfl

/-- Witness for C1 at a concrete input: an Update whose only populated
field is `poll` has `["poll"]` as its populated keys and is classified
as `"poll"`. -/
theorem updateType_classifies_witness :
    ({ update_id := 1, poll := some { id := "p" } } : Update).populatedKeys
      = ["poll"] ∧
    ({ update_id := 1, poll := some { id := "p" } } : Update).updateType
      = Except.ok "poll" :=
  ⟨rfl, (updateType_classifies _).1 "poll" rfl⟩

/-- The "any message-bearing update" resolution as the spec states it:
evaluate the candidates in the fixed sub-priority order top-level
message, then edited message, then the message embedded in a callback
query, then channel post, then edited channel post, and return the
first defined one. -/
def anyMessageResolutionSpec (c : Context) : Option Message :=
  match c.message with
  | some m => some m
  | none =>
    match c.editedMessage with
    | some m => some m
    | none =>
      match c.callbackQuery.bind CallbackQuery.message with
      | some m => some m
      | none =>
        match c.channelPost with
        | some m => some m
        | none => c.editedChannelPost

/-- The `chat` resolution as the spec states it: probe candidates in
exactly the order chat_member, then my_chat_member, then
chat_join_request, then the "any message-bearing update" resolution,
and return the `chat` sub-field of the first non-null candidate; if no
candidate is non-null, return undefined. -/
def chatResolutionSpec (c : Context) : Option Chat :=
  match c.chatMember with
  | some u => some u.chat
  | none =>
    match c.myChatMember with
    | some u => some u.chat
    | none =>
      match c.chatJoinRequest with
      | some r => some r.chat
      | none =>
        match getMessageFromAnySource c with
        | some m => some m.chat
        | none => none

/-- The `from` resolution as the spec states it: probe candidates in
exactly the order callback_query, inline_query, shipping_query,
pre_checkout_query, chosen_inline_result, chat_member, my_chat_member,
chat_join_request, then the "any message-bearing update" resolution,
and return the `from` sub-field of the first non-null candidate. -/
def fromResolutionSpec (c : Context) : Option User :=
  match c.callbackQuery with
  | some q => some q.from_
  | none =>
    match c.inlineQuery with
    | some q => some q.from_
    | none =>
      match c.shippingQuery with
      | some q => some q.from_
      | none =>
        match c.preCheckoutQuery with
        | some q => some q.from_
        | none =>
          match c.chosenInlineResult with
          | some r => some r.from_
          | none =>
            match c.chatMember with
            | some u => some u.from_
            | none =>
              match c.myChatMember with
              | some u => some u.from_
              | none =>
                match c.chatJoinRequest with
                | some r => some r.from_
                | none =>
                  match getMessageFromAnySource c with
                  | some m => m.from_
                  | none => none

/-- C2: the `chat` accessor implements exactly the spec's resolution
order (chat_member, my_chat_member, chat_join_request, then the
any-message-bearing-update resolution, returning the `chat` sub-field
of the first non-null candidate, else undefined); in particular an
Update populated only with `chat_join_request` resolves to that
request's chat, and one populated only with a `callback_query`
carrying a message resolves to `callback_query.message.chat`. -/
theorem chat_resolution (c : Context) (r : ChatJoinRequest)
    (q : CallbackQuery) (m : Message) (i : Nat) :
    c.chat = chatResolutionSpec c ∧
    (Context.mk { update_id := i, chat_join_request := some r }).chat
      = some r.chat ∧
    (Context.mk
        { update_id := i
          callback_query := some { q with message := some m } }).chat
      = some m.chat := by
  refine ⟨?_, rfl, rfl⟩
  obtain ⟨⟨uid, msg, em, cp, ecp, iq, cir, cbq, sq, pcq, pl, pa, mcm, cm,
    cjr⟩⟩ := c
  cases cm <;> cases mcm <;> cases cjr <;> cases msg <;> cases em <;>
    rcases cbq with _ | ⟨qid, qf, qm, qim⟩ <;> (try cases qm) <;>
    cases cp <;> cases ecp <;> rfl

/-- C3: the `from` accessor implements exactly the spec's resolution
order (callback_query, inline_query, shipping_query,
pre_checkout_query, chosen_inline_result, chat_member, my_chat_member,
chat_join_request, then the any-message-bearing-update resolution,
returning the `from` sub-field of the first non-null candidate); in
particular an Update carrying both `callback_query.from` and
`message.from` resolves to the callback query's `from`. -/
theorem from_resolution (c : Context) (q : CallbackQuery) (m : Message)
    (i : Nat) :
    c.from_ = fromResolutionSpec c ∧
    (Context.mk
        { update_id := i
          message := some m
          callback_query := some q }).from_ = some q.from_ := by
  refine ⟨?_, rfl⟩
  obtain ⟨⟨uid, msg, em, cp, ecp, iq, cir, cbq, sq, pcq, pl, pa, mcm, cm,
    cjr⟩⟩ := c
  cases cbq with
  | some q0 => rfl
  | none =>
    cases iq with
    | some q0 => rfl
    | none =>
      cases sq with
      | some q0 => rfl
      | none =>
        cases pcq with
        | some q0 => rfl
        | none =>
          cases cir with
          | some r0 => rfl
          | none =>
            cases cm with
            | some u0 => rfl
            | none =>
              cases mcm with
              | some u0 => rfl
              | none =>
                cases cjr with
                | some r0 => rfl
                | none =>
                  cases msg <;> cases em <;> cases cp <;> cases ecp <;> rfl

/-- C4: `getMessageFromAnySource` evaluates its candidates in exactly
the spec's fixed sub-priority order (top-level message, edited
message, the message embedded in a callback query, channel post,
edited channel post), returning the first defined one; `senderChat`
reuses this resolution, projecting `sender_chat` out of its result. -/
theorem any_message_resolution (c : Context) :
    getMessageFromAnySource c = anyMessageResolutionSpec c ∧
    c.senderChat = (anyMessageResolutionSpec c).bind Message.sender_chat := by
  obtain ⟨⟨uid, msg, em, cp, ecp, iq, cir, cbq, sq, pcq, pl, pa, mcm, cm,
    cjr⟩⟩ := c
  refine ⟨?_, ?_⟩ <;>
    (cases msg <;> cases em <;>
      rcases cbq with _ | ⟨qid, qf, qm, qim⟩ <;> (try cases qm) <;>
      cases cp <;> cases ecp <;> rfl)

/-- C5: for the chat-guarded convenience operations, when the derived
`chat` field is undefined the operation fails synchronously with the
usage error naming the operation and the current update kind (an
`Except.error` result, meaning no `TransportCall` is ever produced);
when `chat` resolves, the operation delegates to the transport with
the resolved chat id. -/
theorem guarded_chat_ops (c : Context) (text : String) (extra : Extra)
    (userId : Int) (t : String) :
    (c.chat = none → c.updateType = Except.ok t →
      c.sendMessage text extra
        = Except.error (usageMessage "sendMessage" t) ∧
      c.getChat = Except.error (usageMessage "getChat" t) ∧
      c.banChatMember userId
        = Except.error (usageMessage "banChatMember" t)) ∧
    (∀ chat, c.chat = some chat →
      c.sendMessage text extra = Except.ok (TransportCall.sendMessage
        chat.id text (spreadUnderThread (getThreadId c.message) extra)) ∧
      c.getChat = Except.ok (TransportCall.getChat chat.id) ∧
      c.banChatMember userId
        = Except.ok (TransportCall.banChatMember chat.id userId)) := by
  constructor
  · intro hchat ht
    refine ⟨?_, ?_, ?_⟩ <;>
      simp [Context.sendMessage, Context.getChat, Context.banChatMember,
        Context.assert, Except.map, hchat, ht]
  · intro chat hchat
    refine ⟨?_, ?_, ?_⟩ <;>
      simp [Context.sendMessage, Context.getChat, Context.banChatMember,
        Context.assert, Except.map, hchat]

/-- Witness for C5 at concrete inputs: on a poll-only Update the
`sendMessage` operation fails with the usage error naming the
operation and the `poll` kind, and on a message Update `getChat`
delegates with the resolved chat id. -/
theorem guarded_chat_ops_witness :
    (Context.mk { update_id := 1, poll := some { id := "p" } }).sendMessage
        "hi" {} = Except.error (usageMessage "sendMessage" "poll") ∧
    (Context.mk
        { update_id := 2
          message := some { message_id := 7, chat := { id := 5 } } }).getChat
      = Except.ok (TransportCall.getChat 5) :=
  ⟨((guarded_chat_ops
      (Context.mk { update_id := 1, poll := some { id := "p" } })
      "hi" {} 0 "poll").1 rfl rfl).1,
   ((guarded_chat_ops
      (Context.mk
        { update_id := 2
          message := some { message_id := 7, chat := { id := 5 } } })
      "hi" {} 0 "x").2 { id := 5 } rfl).2.1⟩

/-- C6: every edit-type operation is guarded by the logical OR of a
callback query and an inline-message-id: when both are absent it fails
synchronously with the usage error naming the operation and the
update kind; the guard value is present exactly when one of the two
is; and when the guard passes, the operation delegates to the
transport carrying the available addressing identifiers: `chat?.id`,
the callback query's `message?.message_id`, and the
inline-message-id. -/
theorem edit_ops_guard (c : Context) (text media : String)
    (caption markup : Option String) (latitude longitude : Int)
    (extra : Extra) (t : String) :
    (c.callbackQuery = none → c.inlineMessageId = none →
      c.updateType = Except.ok t →
      c.editMessageText text extra
        = Except.error (usageMessage "editMessageText" t) ∧
      c.editMessageCaption caption extra
        = Except.error (usageMessage "editMessageCaption" t) ∧
      c.editMessageMedia media extra
        = Except.error (usageMessage "editMessageMedia" t) ∧
      c.editMessageReplyMarkup markup
        = Except.error (usageMessage "editMessageReplyMarkup" t) ∧
      c.editMessageLiveLocation latitude longitude extra
        = Except.error (usageMessage "editMessageLiveLocation" t) ∧
      c.stopMessageLiveLocation markup
        = Except.error (usageMessage "stopMessageLiveLocation" t)) ∧
    (c.editGuard.isSome = true ↔
      (c.callbackQuery.isSome = true ∨ c.inlineMessageId.isSome = true)) ∧
    (c.callbackQuery.isSome = true ∨ c.inlineMessageId.isSome = true →
      c.editMessageText text extra
        = Except.ok (TransportCall.editMessageText (c.chat.map Chat.id)
            c.callbackMessageId c.inlineMessageId text extra) ∧
      c.editMessageCaption caption extra
        = Except.ok (TransportCall.editMessageCaption (c.chat.map Chat.id)
            c.callbackMessageId c.inlineMessageId caption extra) ∧
      c.editMessageMedia media extra
        = Except.ok (TransportCall.editMessageMedia (c.chat.map Chat.id)
            c.callbackMessageId c.inlineMessageId media extra) ∧
      c.editMessageReplyMarkup markup
        = Except.ok (TransportCall.editMessageReplyMarkup
            (c.chat.map Chat.id) c.callbackMessageId c.inlineMessageId
            markup) ∧
      c.editMessageLiveLocation latitude longitude extra
        = Except.ok (TransportCall.editMessageLiveLocation
            (c.chat.map Chat.id) c.callbackMessageId c.inlineMessageId
            latitude longitude extra) ∧
      c.stopMessageLiveLocation markup
        = Except.ok (TransportCall.stopMessageLiveLocation
            (c.chat.map Chat.id) c.callbackMessageId c.inlineMessageId
            markup)) := by
  refine ⟨?_, ?_, ?_⟩
  · intro hcb him ht
    have hg : c.editGuard = none := by
      simp [Context.editGuard, hcb, him]
    refine ⟨?_, ?_, ?_, ?_, ?_, ?_⟩ <;>
      simp [Context.editMessageText, Context.editMessageCaption,
        Context.editMessageMedia, Context.editMessageReplyMarkup,
        Context.editMessageLiveLocation, Context.stopMessageLiveLocation,
        Context.assert, Except.map, hg, ht]
  · cases hcb : c.callbackQuery <;> cases him : c.inlineMessageId <;>
      simp [Context.editGuard, hcb, him]
  · intro h
    obtain ⟨g, hg⟩ : ∃ g, c.editGuard = some g := by
      rcases h with h | h
      · obtain ⟨q, hq⟩ := Option.isSome_iff_exists.mp h
        exact ⟨Sum.inl q, by simp [Context.editGuard, hq]⟩
      · obtain ⟨s, hs⟩ := Option.isSome_iff_exists.mp h
        cases hcb : c.callbackQuery with
        | some q => exact ⟨Sum.inl q, by simp [Context.editGuard, hcb]⟩
        | none => exact ⟨Sum.inr s, by simp [Context.editGuard, hcb, hs]⟩
    refine ⟨?_, ?_, ?_, ?_, ?_, ?_⟩ <;>
      simp [Context.editMessageText, Context.editMessageCaption,
        Context.editMessageMedia, Context.editMessageReplyMarkup,
        Context.editMessageLiveLocation, Context.stopMessageLiveLocation,
        Context.assert, Except.map, hg]

/-- Witness for C6 at concrete inputs: on a poll-only Update (no
callback query, no inline-message-id) `editMessageText` fails with
the usage error, and on a callback-query Update it delegates with the
chat id and message id drawn from the embedded message. -/
theorem edit_ops_guard_witness :
    (Context.mk { update_id := 1, poll := some { id := "p" } }
      ).editMessageText "hi" {}
      = Except.error (usageMessage "editMessageText" "poll") ∧
    (Context.mk
        { update_id := 2
          callback_query := some
            { id := "q", from_ := { id := 9 }
              message := some { message_id := 7, chat := { id := 5 } } } }
      ).editMessageText "hi" {}
      = Except.ok (TransportCall.editMessageText (some 5) (some 7) none
          "hi" {}) :=
  ⟨((edit_ops_guard
      (Context.mk { update_id := 1, poll := some { id := "p" } })
      "hi" "m" none none 0 0 {} "poll").1 rfl rfl rfl).1,
   ((edit_ops_guard
      (Context.mk
        { update_id := 2
          callback_query := some
            { id := "q", from_ := { id := 9 }
              message := some { message_id := 7, chat := { id := 5 } } } })
      "hi" "m" none none 0 0 {} "x").2.2 (Or.inl rfl)).1⟩

/-- C7: the reply-type operations pass to the transport the caller's
extras merged over a `reply_to_message_id` whose value is the
`message_id` of the message resolved by `getMessageFromAnySource`
(then, inside the send operation, over the derived thread id); on the
`reply_to_message_id` key the caller-supplied value wins, and every
other caller-supplied key is passed through unchanged. -/
theorem reply_ops_merge (c : Context) (text photo : String)
    (extra : Extra) (chat : Chat) (r : Nat) :
    (c.chat = some chat →
      c.reply text extra = Except.ok (TransportCall.sendMessage chat.id
        text (spreadUnderThread (getThreadId c.message)
          (spreadUnderReply
            ((getMessageFromAnySource c).map Message.message_id)
            extra))) ∧
      c.replyWithPhoto photo extra = Except.ok (TransportCall.sendPhoto
        chat.id photo (spreadUnderThread (getThreadId c.message)
          (spreadUnderReply
            ((getMessageFromAnySource c).map Message.message_id)
            extra)))) ∧
    (extra.reply_to_message_id = none →
      (spreadUnderReply
          ((getMessageFromAnySource c).map Message.message_id)
          extra).reply_to_message_id
        = (getMessageFromAnySource c).map Message.message_id) ∧
    (extra.reply_to_message_id = some r →
      (spreadUnderReply
          ((getMessageFromAnySource c).map Message.message_id)
          extra).reply_to_message_id = some r) ∧
    (spreadUnderReply ((getMessageFromAnySource c).map Message.message_id)
        extra).message_thread_id = extra.message_thread_id ∧
    (spreadUnderReply ((getMessageFromAnySource c).map Message.message_id)
        extra).parse_mode = extra.parse_mode := by
  refine ⟨?_, ?_, ?_, rfl, rfl⟩
  · intro hchat
    constructor <;>
      simp [Context.reply, Context.replyWithPhoto, Context.sendMessage,
        Context.sendPhoto, Context.assert, Except.map, hchat]
  · intro h
    simp [spreadUnderReply, h]
  · intro h
    simp [spreadUnderReply, h]

/-- Witness for C7 at concrete inputs: on a message Update, `reply`
with empty extras targets the incoming message's id, and a
caller-supplied `reply_to_message_id` overrides the resolved one. -/
theorem reply_ops_merge_witness :
    (Context.mk
        { update_id := 1
          message := some { message_id := 7, chat := { id := 5 } } }).reply
        "hi" {}
      = Except.ok (TransportCall.sendMessage 5 "hi"
          { reply_to_message_id := some 7 }) ∧
    (Context.mk
        { update_id := 1
          message := some { message_id := 7, chat := { id := 5 } } }).reply
        "hi" { reply_to_message_id := some 9 }
      = Except.ok (TransportCall.sendMessage 5 "hi"
          { reply_to_message_id := some 9 }) :=
  ⟨((reply_ops_merge
      (Context.mk
        { update_id := 1
          message := some { message_id := 7, chat := { id := 5 } } })
      "hi" "ph" {} { id := 5 } 9).1 rfl).1,
   ((reply_ops_merge
      (Context.mk
        { update_id := 1
          message := some { message_id := 7, chat := { id := 5 } } })
      "hi" "ph" { reply_to_message_id := some 9 } { id := 5 } 9).1 rfl).1⟩

/-- C8: every forum-topic operation that addresses an existing topic
fails synchronously with the usage error naming the operation and the
update kind whenever `this.message?.message_thread_id` is undefined
(whether or not a chat resolves), and when the thread identifier is
present it delegates to the transport with the resolved chat id and
that thread identifier. -/
theorem forum_topic_ops (c : Context) (extra : Extra) (t : String)
    (chat : Chat) (tid : Nat) :
    (c.messageThreadId = none → c.updateType = Except.ok t →
      c.editForumTopic extra
        = Except.error (usageMessage "editForumTopic" t) ∧
      c.closeForumTopic
        = Except.error (usageMessage "closeForumTopic" t) ∧
      c.reopenForumTopic
        = Except.error (usageMessage "reopenForumTopic" t) ∧
      c.deleteForumTopic
        = Except.error (usageMessage "deleteForumTopic" t) ∧
      c.unpinAllForumTopicMessages
        = Except.error (usageMessage "unpinAllForumTopicMessages" t)) ∧
    (c.chat = some chat → c.messageThreadId = some tid →
      c.editForumTopic extra
        = Except.ok (TransportCall.editForumTopic chat.id tid extra) ∧
      c.closeForumTopic
        = Except.ok (TransportCall.closeForumTopic chat.id tid) ∧
      c.reopenForumTopic
        = Except.ok (TransportCall.reopenForumTopic chat.id tid) ∧
      c.deleteForumTopic
        = Except.ok (TransportCall.deleteForumTopic chat.id tid) ∧
      c.unpinAllForumTopicMessages
        = Except.ok (TransportCall.unpinAllForumTopicMessages chat.id
            tid)) := by
  constructor
  · intro htid ht
    cases hchat : c.chat <;>
      refine ⟨?_, ?_, ?_, ?_, ?_⟩ <;>
        simp [Context.editForumTopic, Context.closeForumTopic,
          Context.reopenForumTopic, Context.deleteForumTopic,
          Context.unpinAllForumTopicMessages, Context.assert, Except.map,
          Bind.bind, Except.bind, hchat, htid, ht]
  · intro hchat htid
    refine ⟨?_, ?_, ?_, ?_, ?_⟩ <;>
      simp [Context.editForumTopic, Context.closeForumTopic,
        Context.reopenForumTopic, Context.deleteForumTopic,
        Context.unpinAllForumTopicMessages, Context.assert, Except.map,
        Bind.bind, Except.bind, Pure.pure, Except.pure, hchat, htid]

/-- Witness for C8 at concrete inputs: on a message without a thread
id, `closeForumTopic` fails with the usage error, and on a topic
message carrying thread id 3 it delegates with the chat id and that
thread id. -/
theorem forum_topic_ops_witness :
    (Context.mk
        { update_id := 1
          message := some { message_id := 7, chat := { id := 5 } } }
      ).closeForumTopic
      = Except.error (usageMessage "closeForumTopic" "message") ∧
    (Context.mk
        { update_id := 1
          message := some
            { message_id := 7, chat := { id := 5 }
              message_thread_id := some 3 } }).closeForumTopic
      = Except.ok (TransportCall.closeForumTopic 5 3) :=
  ⟨((forum_topic_ops
      (Context.mk
        { update_id := 1
          message := some { message_id := 7, chat := { id := 5 } } })
      {} "message" { id := 5 } 3).1 rfl rfl).2.1,
   ((forum_topic_ops
      (Context.mk
        { update_id := 1
          message := some
            { message_id := 7, chat := { id := 5 }
              message_thread_id := some 3 } })
      {} "message" { id := 5 } 3).2 rfl rfl).2.1⟩

/-- C9: in the webhook adapter, for a request passing the filter, any
body decode/parse failure responds 415, ends the response, never
invokes the update handler, and throws nothing to the adapter's
caller; a request whose pre-attached body is already a structured
object dispatches the handler with exactly that object. -/
theorem webhook_parse_and_dispatch (filter : Req → Bool)
    (updateHandler : Update → Res → Option String × Res)
    (decode : List Nat → String)
    (jsonParse : String → Except String Update)
    (req : Req) (res : Res) (e : String) (u : Update)
    (hf : filter req = true) :
    (parseBody decode jsonParse req = Except.error e →
      (generateWebhook filter updateHandler decode jsonParse req
          res).res.statusCode = some 415 ∧
      (generateWebhook filter updateHandler decode jsonParse req
          res).res.writableEnded = true ∧
      (generateWebhook filter updateHandler decode jsonParse req
          res).dispatched = [] ∧
      (generateWebhook filter updateHandler decode jsonParse req
          res).thrown = none) ∧
    (req.body = some (ReqBody.obj u) →
      (generateWebhook filter updateHandler decode jsonParse req
          res).dispatched = [u]) := by
  constructor
  · intro hp
    refine ⟨?_, ?_, ?_, ?_⟩ <;>
      simp [generateWebhook, hf, hp, Res.writeHead, Res.endResponse]
  · intro hb
    have hp : parseBody decode jsonParse req = Except.ok u := by
      simp [parseBody, hb]
    simp [generateWebhook, hf, hp]

/-- Witness for C9 at concrete inputs: with a filter that accepts
everything and a parser that always fails, a string-bodied request
responds 415 with no dispatch and nothing thrown; with a pre-attached
structured body, the handler receives exactly that update. -/
theorem webhook_parse_and_dispatch_witness :
    (generateWebhook (fun _ => true) (fun _ r => (none, r))
        (fun _ => "") (fun _ => Except.error "bad")
        { body := some (ReqBody.str "x") } {}).res.statusCode
      = some 415 ∧
    (generateWebhook (fun _ => true) (fun _ r => (none, r))
        (fun _ => "") (fun _ => Except.error "bad")
        { body := some (ReqBody.str "x") } {}).dispatched = [] ∧
    (generateWebhook (fun _ => true) (fun _ r => (none, r))
        (fun _ => "") (fun _ => Except.error "bad")
        { body := some (ReqBody.obj { update_id := 3 }) } {}).dispatched
      = [{ update_id := 3 }] :=
  ⟨((webhook_parse_and_dispatch (fun _ => true) (fun _ r => (none, r))
      (fun _ => "") (fun _ => Except.error "bad")
      { body := some (ReqBody.str "x") } {} "bad" { update_id := 3 }
      rfl).1 rfl).1,
   ((webhook_parse_and_dispatch (fun _ => true) (fun _ r => (none, r))
      (fun _ => "") (fun _ => Except.error "bad")
      { body := some (ReqBody.str "x") } {} "bad" { update_id := 3 }
      rfl).1 rfl).2.2.1,
   (webhook_parse_and_dispatch (fun _ => true) (fun _ r => (none, r))
      (fun _ => "") (fun _ => Except.error "bad")
      { body := some (ReqBody.obj { update_id := 3 }) } {} "bad"
      { update_id := 3 } rfl).2 rfl⟩

/-- C10: for every dispatched request the response ends up finalized,
a handler exception propagates unchanged to the adapter's caller, the
adapter leaves the response untouched when the handler already ended
it and ends it exactly once otherwise; in particular, for a handler
that ended the response at most once (with a consistent
`writableEnded` flag) the final end-count is exactly one, even when
the handler threw. -/
theorem webhook_response_finalized (filter : Req → Bool)
    (updateHandler : Update → Res → Option String × Res)
    (decode : List Nat → String)
    (jsonParse : String → Except String Update)
    (req : Req) (res res' : Res) (u : Update) (err : Option String)
    (hf : filter req = true)
    (hp : parseBody decode jsonParse req = Except.ok u)
    (hh : updateHandler u res = (err, res')) :
    (generateWebhook filter updateHandler decode jsonParse req
        res).res.writableEnded = true ∧
    (generateWebhook filter updateHandler decode jsonParse req
        res).thrown = err ∧
    (res'.writableEnded = true →
      (generateWebhook filter updateHandler decode jsonParse req
          res).res = res') ∧
    (res'.writableEnded = false →
      (generateWebhook filter updateHandler decode jsonParse req
          res).res = res'.endResponse) ∧
    (res'.writableEnded = decide (res'.endCount ≠ 0) →
      res'.endCount ≤ 1 →
      (generateWebhook filter updateHandler decode jsonParse req
          res).res.endCount = 1) := by
  have hw : generateWebhook filter updateHandler decode jsonParse req res
      = { res := if res'.writableEnded then res' else res'.endResponse
          dispatched := [u]
          thrown := err } := by
    simp [generateWebhook, hf, hp, hh]
  refine ⟨?_, ?_, ?_, ?_, ?_⟩
  · rw [hw]
    cases h : res'.writableEnded <;> simp [h, Res.endResponse]
  · rw [hw]
  · intro h
    rw [hw]
    simp [h]
  · intro h
    rw [hw]
    simp [h]
  · intro hcons hle
    rw [hw]
    cases h : res'.writableEnded with
    | true =>
      rw [h] at hcons
      have : res'.endCount ≠ 0 := by
        by_contra hz
        simp [hz] at hcons
      simp
      omega
    | false =>
      rw [h] at hcons
      have : res'.endCount = 0 := by
        by_contra hz
        simp [hz] at hcons
      simp [Res.endResponse, this]

/-- Witness for C10 at concrete inputs: a handler that throws without
ending the response still yields a finalized response (ended exactly
once) and its exception propagates. -/
theorem webhook_response_finalized_witness :
    (generateWebhook (fun _ => true)
        (fun _ r => (some "boom", r)) (fun _ => "")
        (fun _ => Except.ok { update_id := 3 })
        { streamBody := "s" } {}).res.writableEnded = true ∧
    (generateWebhook (fun _ => true)
        (fun _ r => (some "boom", r)) (fun _ => "")
        (fun _ => Except.ok { update_id := 3 })
        { streamBody := "s" } {}).thrown = some "boom" ∧
    (generateWebhook (fun _ => true)
        (fun _ r => (some "boom", r)) (fun _ => "")
        (fun _ => Except.ok { update_id := 3 })
        { streamBody := "s" } {}).res.endCount = 1 :=
  ⟨(webhook_response_finalized (fun _ => true)
      (fun _ r => (some "boom", r)) (fun _ => "")
      (fun _ => Except.ok { update_id := 3 })
      { streamBody := "s" } {} {} { update_id := 3 } (some "boom")
      rfl rfl rfl).1,
   (webhook_response_finalized (fun _ => true)
      (fun _ r => (some "boom", r)) (fun _ => "")
      (fun _ => Except.ok { update_id := 3 })
      { streamBody := "s" } {} {} { update_id := 3 } (some "boom")
      rfl rfl rfl).2.1,
   (webhook_response_finalized (fun _ => true)
      (fun _ r => (some "boom", r)) (fun _ => "")
      (fun _ => Except.ok { update_id := 3 })
      { streamBody := "s" } {} {} { update_id := 3 } (some "boom")
      rfl rfl rfl).2.2.2.2 rfl (by decide)⟩

end Telegraf
